import Mathlib

/-!
Verification development for the sports-bot aggregation core
(`bot_menu_gratuit_plus.py`).

The Python module is shallowly embedded: provider JSON payloads become
record types with `Option` fields (a `none` models an absent key, and
Python truthiness — where the empty string is falsy — is modelled by
`pyOr`), the network is an explicit oracle argument mapping a request to
`Except UpstreamError` of the parsed payload, and a Python exception
escaping a `try` block is an `Except.error` value.  All definitions are
executable.
-/

/-- Python `a or b` for an optional string `a`: `None` and `""` are falsy. -/
def pyOr (a : Option String) (b : String) : String :=
  match a with
  | none => b
  | some s => if s = "" then b else s

/-- Python `a or b` for two strings: `""` is falsy. -/
def pyOrS (a b : String) : String :=
  if a = "" then b else a

/-- Python truthiness of an optional string (`None` and `""` are falsy). -/
def pyTruthy (a : Option String) : Bool :=
  match a with
  | none => false
  | some s => s ≠ ""

/-- The `team` object inside an ESPN competitor (`competitor["team"]`).
All fields are optional keys of the provider payload. -/
structure RawTeam where
  id : Option String
  displayName : Option String
  shortDisplayName : Option String
  abbreviation : Option String
deriving Repr, DecidableEq, Inhabited

/-- One entry of `competition["competitors"]`. -/
structure RawCompetitor where
  team : Option RawTeam
  homeAway : Option String
  score : Option String
deriving Repr, DecidableEq, Inhabited

/-- One entry of `event["competitions"]`.  `statusCompleted` models the
truthiness of `competition["status"]["type"]["completed"]` (absent keys
are falsy). -/
structure RawCompetition where
  competitors : List RawCompetitor
  date : Option String
  statusCompleted : Bool
deriving Repr, DecidableEq, Inhabited

/-- One entry of `scoreboard["events"]` (also one entry of the per-team
schedule payload's `events`). -/
structure RawEvent where
  id : Option String
  date : Option String
  competitions : List RawCompetition
deriving Repr, DecidableEq, Inhabited

/-- An ESPN scoreboard / schedule payload: `data.get("events", []) or []`. -/
structure Scoreboard where
  events : List RawEvent
deriving Repr, DecidableEq, Inhabited

/-- The canonical match record built by `parse_espn_events_to_matches`
(the dict literal at lines 172–182 of the source). -/
structure Match where
  sport : String
  league : String
  league_name : String
  id : String
  start_time : String
  home : String
  away : String
  home_id : String
  away_id : String
deriving Repr, DecidableEq, Inhabited

/-- `UpstreamError{status, message}`: an exception escaping
`http_get_json` (network failure, non-2xx status, malformed body). -/
structure UpstreamError where
  status : Nat
  message : String
deriving Repr, DecidableEq, Inhabited

/-- `SOCCER_LEAGUES` (source lines 26–36). -/
def SOCCER_LEAGUES : List (String × String) :=
  [("eng.1", "Premier League"),
   ("esp.1", "LaLiga"),
   ("ita.1", "Serie A"),
   ("fra.1", "Ligue 1"),
   ("ger.1", "Bundesliga"),
   ("uefa.champions", "UEFA Champions League"),
   ("uefa.europa", "UEFA Europa League"),
   ("uefa.europa.conf", "UEFA Conference League"),
   ("fifa.world", "International (FIFA)")]

/-- `BASKET_LEAGUES` (source lines 38–43). -/
def BASKET_LEAGUES : List (String × String) :=
  [("nba", "NBA"),
   ("euroleague", "EuroLeague"),
   ("france-lnb", "Betclic ÉLITE (si dispo)")]

/-- The two tennis tours iterated by `fetch_tennis_matches` (line 217). -/
def TENNIS_LEAGUES : List (String × String) :=
  [("atp", "ATP"), ("wta", "WTA")]

/-- `SPORT_LABELS` (source lines 45–52). -/
def SPORT_LABELS : List (String × String) :=
  [("soccer", "⚽ Foot"),
   ("basketball", "🏀 Basket"),
   ("tennis", "🎾 Tennis"),
   ("nhl", "🏒 NHL"),
   ("nfl", "🏈 NFL"),
   ("mlb", "⚾ MLB")]

/-- `SPORT_LABELS.get(sport, sport)`. -/
def sportLabel (s : String) : String :=
  (((SPORT_LABELS.find? (fun p => p.1 == s)).map (fun p => p.2))).getD s

/-- `c.get("homeAway") == "home"`. -/
def isHomeTag (c : RawCompetitor) : Bool := c.homeAway == some "home"

/-- `c.get("homeAway") == "away"`. -/
def isAwayTag (c : RawCompetitor) : Bool := c.homeAway == some "away"

/-- Display-name fallback chain of the scoreboard normalizer
(lines 178–179): `team.get("displayName") or team.get("shortDisplayName")
or placeholder`, where the team object itself may be absent
(`obj.get("team") or {}`). -/
def teamName (t : Option RawTeam) (placeholder : String) : String :=
  let tm := t.getD default
  pyOr tm.displayName (pyOr tm.shortDisplayName placeholder)

/-- `str(team.get("id", ""))` (lines 180–181). -/
def teamIdField (t : Option RawTeam) : String :=
  ((t.getD default).id).getD ""

/-- Normalization of one scoreboard event (the body of the `for` loop of
`parse_espn_events_to_matches`, lines 156–182).  `none` models `continue`
(the event is skipped). -/
def normalizeEvent (sport_key league_code league_name : String)
    (ev : RawEvent) : Option Match :=
  match ev.competitions with
  | [] => none
  | comp :: _ =>
    match comp.competitors with
    | c1 :: c2 :: _ =>
      let home_obj := (comp.competitors.find? isHomeTag).getD c1
      let away_obj := (comp.competitors.find? isAwayTag).getD c2
      some { sport := sport_key
             league := league_code
             league_name := league_name
             id := ev.id.getD "None"
             start_time := comp.date.getD (ev.date.getD "")
             home := teamName home_obj.team "HOME"
             away := teamName away_obj.team "AWAY"
             home_id := teamIdField home_obj.team
             away_id := teamIdField away_obj.team }
    | _ => none

/-- `parse_espn_events_to_matches` (lines 149–183). -/
def parse_espn_events_to_matches (sport_key : String) (scoreboard : Scoreboard)
    (league_code league_name : String) : List Match :=
  scoreboard.events.filterMap (normalizeEvent sport_key league_code league_name)

/-- The network seen by the scoreboard pipelines: `espn_scoreboard
(sport_path, league, dt)` for the one date of the current action, i.e. a
map from `(sport_path, league)` to the outcome of `http_get_json` on that
league's scoreboard URL. -/
structure ScoreOracle where
  board : String → String → Except UpstreamError Scoreboard

/-- `fetch_soccer_matches` (lines 185–193): per-league `try/except`,
successful leagues are concatenated in configuration order. -/
def fetch_soccer_matches (o : ScoreOracle) : List Match :=
  SOCCER_LEAGUES.flatMap (fun p =>
    match o.board "soccer" p.1 with
    | .error _ => []
    | .ok sb => parse_espn_events_to_matches "soccer" sb p.1 p.2)

/-- `fetch_basket_matches` (lines 195–200): single league, `try/except`
returning `[]` on failure. -/
def fetch_basket_matches (o : ScoreOracle) (league_code league_name : String) :
    List Match :=
  match o.board "basketball" league_code with
  | .error _ => []
  | .ok sb => parse_espn_events_to_matches "basketball" sb league_code league_name

/-- `fetch_nfl_matches` (lines 202–204): no `try/except`; an upstream
failure escapes to the caller. -/
def fetch_nfl_matches (o : ScoreOracle) : Except UpstreamError (List Match) :=
  (o.board "football" "nfl").map
    (fun sb => parse_espn_events_to_matches "nfl" sb "nfl" "NFL")

/-- `fetch_nhl_matches_espn` (lines 206–208): no `try/except`. -/
def fetch_nhl_matches_espn (o : ScoreOracle) : Except UpstreamError (List Match) :=
  (o.board "hockey" "nhl").map
    (fun sb => parse_espn_events_to_matches "nhl" sb "nhl" "NHL")

/-- `fetch_mlb_matches_espn` (lines 210–212): no `try/except`. -/
def fetch_mlb_matches_espn (o : ScoreOracle) : Except UpstreamError (List Match) :=
  (o.board "baseball" "mlb").map
    (fun sb => parse_espn_events_to_matches "mlb" sb "mlb" "MLB")

/-- `fetch_tennis_matches` (lines 215–223): ATP/WTA with per-league
`try/except`. -/
def fetch_tennis_matches (o : ScoreOracle) : List Match :=
  TENNIS_LEAGUES.flatMap (fun p =>
    match o.board "tennis" p.1 with
    | .error _ => []
    | .ok sb => parse_espn_events_to_matches "tennis" sb p.1 p.2)


/-- Python `sep.join(parts)`. -/
def joinSep (sep : String) : List String → String
  | [] => ""
  | [a] => a
  | a :: b :: rest => a ++ sep ++ joinSep sep (b :: rest)

/-- `ESPN_BASE` (line 23). -/
def ESPN_BASE : String := "https://site.api.espn.com/apis/site/v2"

/-- The request built by `team_form_espn` (lines 99–100): per-team
schedule URL plus the `{"limit": 25}` query parameter. -/
def team_form_request (sport_path league team_id : String) :
    String × List (String × Nat) :=
  (ESPN_BASE ++ "/sports/" ++ sport_path ++ "/" ++ league ++ "/teams/"
     ++ team_id ++ "/schedule",
   [("limit", 25)])

/-- Decimal digit-string parser over char data. -/
def digitsToNat : List Char → Option Nat
  | [] => none
  | cs =>
    if cs.all (fun c => c.isDigit) then
      some (cs.foldl (fun n c => n * 10 + (c.toNat - '0'.toNat)) 0)
    else none

/-- Python `int(s)`: `none` models the `ValueError` raised on a
non-numeric string (an optional leading minus sign, then digits). -/
def pyInt (s : String) : Option Int :=
  match s.data with
  | '-' :: rest => (digitsToNat rest).map (fun n => -(n : Int))
  | ds => (digitsToNat ds).map (fun n => (n : Int))

/-- `str(competitor.get("team", {}).get("id", ""))` as used by
`team_form_espn` (lines 125–126). -/
def formTeamId (c : RawCompetitor) : String :=
  ((c.team.getD default).id).getD ""

/-- Name fallback of `team_form_espn` (lines 120–121): abbreviation,
then display name, then the fixed `"T1"`/`"T2"` placeholder. -/
def formName (c : RawCompetitor) (placeholder : String) : String :=
  let tm := c.team.getD default
  pyOr tm.abbreviation (pyOr tm.displayName placeholder)

/-- The per-event body of the result loop of `team_form_espn`
(lines 104–136).  `.ok none` models `continue`, `.ok (some line)` a
formatted result line, `.error` the `ValueError` of `int(...)`. -/
def formEventStep (fmtDt : String → String) (team_id : String) (ev : RawEvent) :
    Except Unit (Option String) :=
  match ev.competitions with
  | [] => .ok none
  | comp :: _ =>
    if comp.statusCompleted = false then .ok none
    else
      match comp.competitors with
      | c1 :: c2 :: _ =>
        match pyInt (pyOr c1.score "0"), pyInt (pyOr c2.score "0") with
        | some s1, some s2 =>
          let n1 := formName c1 "T1"
          let n2 := formName c2 "T2"
          let date := fmtDt (comp.date.getD (ev.date.getD ""))
          if formTeamId c1 = team_id then
            let wl := if s1 > s2 then "W" else if s1 < s2 then "L" else "D"
            .ok (some (wl ++ " " ++ n1 ++ " " ++ toString s1 ++ "-"
              ++ toString s2 ++ " " ++ n2 ++ " (" ++ date ++ ")"))
          else if formTeamId c2 = team_id then
            let wl := if s2 > s1 then "W" else if s2 < s1 then "L" else "D"
            .ok (some (wl ++ " " ++ n1 ++ " " ++ toString s1 ++ "-"
              ++ toString s2 ++ " " ++ n2 ++ " (" ++ date ++ ")"))
          else .ok none
        | _, _ => .error ()
      | _ => .ok none

/-- The result loop of `team_form_espn` (lines 103–136), accumulating
formatted result lines and breaking once five are collected; a
`ValueError` escaping the loop discards all accumulated lines. -/
def formLoop (fmtDt : String → String) (team_id : String) :
    List RawEvent → List String → Except Unit (List String)
  | [], acc => .ok acc
  | ev :: rest, acc =>
    match formEventStep fmtDt team_id ev with
    | .error _ => .error ()
    | .ok none => formLoop fmtDt team_id rest acc
    | .ok (some line) =>
      let acc2 := acc ++ [line]
      if acc2.length ≥ 5 then .ok acc2 else formLoop fmtDt team_id rest acc2

/-- `matchup.goalies.{home,away}.playerName` of the NHL landing payload
(lines 231–233); the chains of `x.get(k, {}) or {}` collapse to optional
player-name strings. -/
structure NhlLanding where
  homeGoalie : Option String
  awayGoalie : Option String
deriving Repr, DecidableEq, Inhabited

/-- `gameData.probablePitchers.{home,away}.fullName` of the MLB live
feed (lines 249–252). -/
structure MlbFeed where
  homePitcher : Option String
  awayPitcher : Option String
deriving Repr, DecidableEq, Inhabited

/-- The network seen by the three enrichment fetchers: the per-team
schedule endpoint of `team_form_espn`, the NHL gamecenter landing
endpoint of `nhl_goalies`, and the MLB live-feed endpoint of
`mlb_pitchers`.  `Except.error` models any exception reaching the
fetcher's `try`. -/
structure EnrichOracle where
  schedule : String → String → String → Except Unit Scoreboard
  goalies : String → Except Unit NhlLanding
  pitchers : String → Except Unit MlbFeed

/-- `team_form_espn` (lines 93–140).  `fmtDt` abstracts `fmt_dt`'s
local-timezone date formatting (pure, data-independent of the claims). -/
def team_form_espn (fmtDt : String → String) (o : EnrichOracle)
    (sport_path league team_id : String) : String :=
  match o.schedule sport_path league team_id with
  | .error _ => "📈 Forme: indisponible"
  | .ok data =>
    match formLoop fmtDt team_id data.events [] with
    | .error _ => "📈 Forme: indisponible"
    | .ok results =>
      if results = [] then "📈 Forme: indisponible"
      else "📈 Forme (5 derniers):\n- " ++ joinSep "\n- " results

/-- `nhl_goalies` (lines 228–241). -/
def nhl_goalies (o : EnrichOracle) (game_id : String) : String :=
  match o.goalies game_id with
  | .error _ => "🧤 Gardiens probables: indisponible"
  | .ok landing =>
    let h := landing.homeGoalie
    let a := landing.awayGoalie
    if !(pyTruthy h || pyTruthy a) then "🧤 Gardiens probables: indisponible"
    else
      joinSep "\n"
        (["🧤 Gardiens probables (si dispo):"]
          ++ (if pyTruthy a then ["- Extérieur: " ++ a.getD ""] else [])
          ++ (if pyTruthy h then ["- Domicile: " ++ h.getD ""] else []))

/-- `mlb_pitchers` (lines 246–260). -/
def mlb_pitchers (o : EnrichOracle) (game_pk : String) : String :=
  match o.pitchers game_pk with
  | .error _ => "⚾ Lanceurs probables: indisponible"
  | .ok feed =>
    let hp := feed.homePitcher
    let ap := feed.awayPitcher
    if !(pyTruthy hp || pyTruthy ap) then "⚾ Lanceurs probables: indisponible"
    else
      joinSep "\n"
        (["⚾ Lanceurs probables (si dispo):"]
          ++ (if pyTruthy ap then ["- Extérieur: " ++ ap.getD ""] else [])
          ++ (if pyTruthy hp then ["- Domicile: " ++ hp.getD ""] else []))

/-- `markets_for` (lines 75–88). -/
def markets_for (sport : String) : List String :=
  if sport = "soccer" then
    ["1X2", "Double chance (1X/12/X2)", "Over/Under 2.5", "BTTS", "Handicap (indicatif)"]
  else if sport = "basketball" then
    ["Moneyline", "Spread (indicatif)", "Total points (O/U)", "Mi-temps", "Team totals"]
  else if sport = "tennis" then
    ["Vainqueur", "Nombre de sets", "O/U jeux", "Handicap jeux", "Vainqueur 1er set"]
  else if sport = "nhl" then
    ["Moneyline", "Puck line", "Total buts (O/U)", "1er tiers", "Team totals"]
  else if sport = "nfl" then
    ["Moneyline", "Spread", "Total points (O/U)", "Team totals", "Mi-temps"]
  else if sport = "mlb" then
    ["Moneyline", "Run line", "Total runs (O/U)", "1st 5 innings", "Team totals"]
  else []

/-- `InlineKeyboardButton(label, callback_data)`. -/
structure Button where
  label : String
  callback_data : String
deriving Repr, DecidableEq, Inhabited

/-- A keyboard is a list of button rows (`InlineKeyboardMarkup`). -/
abbrev Keyboard := List (List Button)

/-- One `edit_message_text(text, reply_markup)` call. -/
structure RenderMsg where
  text : String
  keyboard : Keyboard
deriving Repr, DecidableEq, Inhabited

/-- Pairing loop of `kb_sports` (`for i in range(0, len(items), 2)`). -/
def chunkPairs {α : Type} : List α → List (List α)
  | [] => []
  | [a] => [[a]]
  | a :: b :: rest => [a, b] :: chunkPairs rest

/-- `kb_sports` (lines 265–274). -/
def kb_sports : Keyboard :=
  chunkPairs (SPORT_LABELS.map (fun p => Button.mk p.2 ("sport|" ++ p.1)))
    ++ [[Button.mk "❌ Fermer" "close|x"]]

/-- `kb_dates` (lines 276–284). -/
def kb_dates : Keyboard :=
  [[Button.mk "📅 Aujourd’hui" "date|today", Button.mk "📅 Demain" "date|tomorrow"],
   [Button.mk "⬅️ Retour sports" "back|sports"],
   [Button.mk "❌ Fermer" "close|x"]]

/-- The slice `matches[page*page_size : page*page_size + page_size]`
(lines 295–297); a past-the-end page yields `[]`. -/
def pageWindow (ms : List Match) (page page_size : Nat) : List Match :=
  (ms.drop (page * page_size)).take page_size

/-- The match button of one listed match (lines 302–303). -/
def btnMatch (fmtDt : String → String) (m : Match) : Button :=
  Button.mk (fmtDt m.start_time ++ " — " ++ m.away ++ " @ " ++ m.home)
    ("match|" ++ m.id)

/-- The competition context button of one listed match (lines 301, 305). -/
def btnComp (m : Match) : Button :=
  Button.mk ("🏆 " ++ pyOrS m.league_name (pyOrS m.league "")) "noop|x"

/-- The two rows emitted per listed match (lines 300–305). -/
def matchRows (fmtDt : String → String) : List Match → Keyboard
  | [] => []
  | m :: rest => [btnMatch fmtDt m] :: [btnComp m] :: matchRows fmtDt rest

/-- The "previous page" button (line 309). -/
def prevBtn (page : Nat) : Button :=
  Button.mk "⬅️ Précédent" ("page|" ++ toString (page - 1))

/-- The "next page" button (line 311). -/
def nextBtn (page : Nat) : Button :=
  Button.mk "➡️ Suivant" ("page|" ++ toString (page + 1))

/-- The navigation row content of `kb_matches` (lines 307–311). -/
def navButtons (page total page_size : Nat) : List Button :=
  (if page > 0 then [prevBtn page] else [])
  ++ (if page * page_size + page_size < total then [nextBtn page] else [])

/-- The trailing rows of `kb_matches`: optional navigation row plus the
fixed footer (lines 312–317). -/
def navFooterRows (page total page_size : Nat) : Keyboard :=
  (if (navButtons page total page_size).isEmpty then []
   else [navButtons page total page_size])
  ++ [[Button.mk "⬅️ Retour" "back|dates"],
      [Button.mk "🏠 Menu sports" "back|sports"],
      [Button.mk "❌ Fermer" "close|x"]]

/-- `kb_matches` (lines 294–318); callers pass the default
`page_size = 10`. -/
def kb_matches (fmtDt : String → String) (ms : List Match)
    (page page_size : Nat) : Keyboard :=
  matchRows fmtDt (pageWindow ms page page_size)
    ++ navFooterRows page ms.length page_size

/-- `context.user_data`: the per-user navigation state.  Absent dict
keys are `none`; `matches` and `page` carry the defaults every read site
uses (`get("matches", []) or []`, `get("page", 0)`). -/
structure ConvState where
  sport : Option String
  basket_league : Option (String × String)
  date_choice : Option String
  «matches» : List Match
  page : Nat
deriving Repr, DecidableEq, Inhabited

/-- Executable lexicographic comparison of char lists (code-point
order, as Python compares strings). -/
def lexLe : List Char → List Char → Bool
  | [], _ => true
  | _ :: _, [] => false
  | a :: as, b :: bs => if a < b then true else if b < a then false else lexLe as bs

/-- Executable lexicographic `≤` on strings. -/
def strLe (a b : String) : Bool := lexLe a.data b.data

/-- `matches.sort(key=lambda x: x.get("start_time", ""))` (line 403):
stable ascending sort on the `start_time` string. -/
def sortMatches (ms : List Match) : List Match :=
  List.insertionSort (fun a b : Match => strLe a.start_time b.start_time = true) ms

/-- Title of the match list (line 416). -/
def dateTitle (sport choice : String) : String :=
  "Matchs " ++ sportLabel sport ++ " — "
    ++ (if choice = "tomorrow" then "Demain" else "Aujourd’hui")

/-- The `if sport == ... / elif ...` pipeline dispatch of the
`action == "date"` branch (lines 388–401). -/
def pipelineFor (o : ScoreOracle) (st1 : ConvState) (sport : String) :
    Except UpstreamError (List Match) :=
  if sport = "soccer" then .ok (fetch_soccer_matches o)
  else if sport = "basketball" then
    .ok (fetch_basket_matches o (st1.basket_league.getD ("nba", "NBA")).1
          (st1.basket_league.getD ("nba", "NBA")).2)
  else if sport = "tennis" then .ok (fetch_tennis_matches o)
  else if sport = "nhl" then fetch_nhl_matches_espn o
  else if sport = "nfl" then fetch_nfl_matches o
  else if sport = "mlb" then fetch_mlb_matches_espn o
  else .ok []

/-- The `action == "date"` branch of `on_button` (lines 375–418).  The
returned pair is (new state, final render); `Except.error` models an
uncaught pipeline exception aborting the handler (in that case the
transient state written before the fetch is kept, line 383–384, but no
match list is stored and no final render happens). -/
def on_date (fmtDt : String → String) (o : ScoreOracle) (st : ConvState)
    (choice : String) : Except UpstreamError (ConvState × RenderMsg) :=
  if pyTruthy st.sport = false then
    .ok (st, RenderMsg.mk "Choisis un sport 👇" kb_sports)
  else
    let sport := st.sport.getD ""
    let st1 := { st with date_choice := some choice, page := 0 }
    (pipelineFor o st1 sport).map (fun ms =>
      let sorted := sortMatches ms
      let st2 := { st1 with «matches» := sorted }
      if sorted = [] then
        (st2, RenderMsg.mk "Aucun match trouvé."
          [[Button.mk "🏠 Menu sports" "back|sports"]])
      else
        (st2, RenderMsg.mk (dateTitle sport choice)
          (kb_matches fmtDt sorted 0 10)))

/-- The `action == "page"` branch of `on_button` (lines 420–427). -/
def on_page (fmtDt : String → String) (st : ConvState) (page : Nat) :
    ConvState × RenderMsg :=
  let st1 := { st with page := page }
  (st1,
   RenderMsg.mk
     ("Matchs " ++ sportLabel (st.sport.getD "") ++ " — "
       ++ (if st.date_choice = some "tomorrow" then "Demain" else "Aujourd’hui"))
     (kb_matches fmtDt st.«matches» page 10))

/-- One upstream call issued while assembling a detail page: the
per-team schedule fetch of `team_form_espn` (with its `limit` query
parameter), the NHL goalie landing fetch, or the MLB pitcher feed
fetch. -/
inductive FetchReq where
  | schedule (sport_path league team_id : String) (limit : Nat)
  | goalieLanding (game_id : String)
  | pitcherFeed (game_pk : String)
deriving Repr, DecidableEq

/-- The per-sport enrichment step of the `action == "match"` branch
(lines 441–474): recent-form strings for both sides, the sport-specific
extra lines, and the upstream requests those fetchers issue. -/
def detailParts (fmtDt : String → String) (o : EnrichOracle) (sport : String)
    (picked : Match) (match_id : String) :
    String × String × List String × List FetchReq :=
  let unavailable := "📈 Forme: indisponible"
  let formPair := fun (sport_path league : String) =>
    (team_form_espn fmtDt o sport_path league picked.home_id,
     team_form_espn fmtDt o sport_path league picked.away_id,
     [FetchReq.schedule sport_path league picked.home_id 25,
      FetchReq.schedule sport_path league picked.away_id 25])
  if sport = "soccer" then
    let p := formPair "soccer" picked.league
    (p.1, p.2.1, [], p.2.2)
  else if sport = "basketball" then
    let p := formPair "basketball" picked.league
    (p.1, p.2.1, [], p.2.2)
  else if sport = "nfl" then
    let p := formPair "football" "nfl"
    (p.1, p.2.1, [], p.2.2)
  else if sport = "nhl" then
    let p := formPair "hockey" "nhl"
    (p.1, p.2.1, [nhl_goalies o match_id],
     p.2.2 ++ [FetchReq.goalieLanding match_id])
  else if sport = "mlb" then
    let p := formPair "baseball" "mlb"
    (p.1, p.2.1,
     ["⚠️ Pitchers MLB: dispo si ID correspond à StatsAPI (sinon ignore).",
      mlb_pitchers o match_id],
     p.2.2 ++ [FetchReq.pitcherFeed match_id])
  else
    (unavailable, unavailable, [], [])

/-- The detail-page text and keyboard (lines 476–505). -/
def detailRender (fmtDt : String → String) (sport : String) (picked : Match)
    (form_home form_away : String) (extra_lines : List String) (page : Nat) :
    RenderMsg :=
  RenderMsg.mk
    (joinSep "\n"
      (["✅ " ++ sportLabel sport,
        fmtDt picked.start_time ++ " — " ++ picked.away ++ " @ " ++ picked.home]
        ++ (if picked.league_name ≠ "" then ["🏆 " ++ picked.league_name] else [])
        ++ ["", "— Forme —",
            "🏠 " ++ picked.home ++ "\n" ++ form_home,
            "",
            "🚌 " ++ picked.away ++ "\n" ++ form_away]
        ++ (if extra_lines.isEmpty then [] else [""] ++ extra_lines)
        ++ ["", "🎯 Possibilités de paris :"]
        ++ (markets_for sport).map (fun m => "- " ++ m)
        ++ ["", "⚠️ Info & analyse = aide à la décision, pas une garantie de gains."]))
    [[Button.mk "⬅️ Retour liste" ("page|" ++ toString page)],
     [Button.mk "🏠 Menu sports" "back|sports"]]

/-- The fixed not-found render of the `action == "match"` branch
(line 436). -/
def notFoundRender : RenderMsg :=
  RenderMsg.mk "Erreur: match introuvable dans la liste. Reviens au menu."
    kb_sports

/-- The `action == "match"` branch of `on_button` (lines 429–506),
returning the final render together with every enrichment request
issued on the way. -/
def on_match (fmtDt : String → String) (o : EnrichOracle) (st : ConvState)
    (match_id : String) : RenderMsg × List FetchReq :=
  let picked := st.«matches».find? (fun m => m.id == match_id)
  if pyTruthy st.sport = false ∨ picked = none then
    (notFoundRender, [])
  else
    let sport := st.sport.getD ""
    let p := picked.getD default
    let parts := detailParts fmtDt o sport p match_id
    (detailRender fmtDt sport p parts.1 parts.2.1 parts.2.2.1 st.page,
     parts.2.2.2)

/-- Modelled from the spec: the `TTLCache` behaviour behind
`CACHE = TTLCache(maxsize=2048, ttl=60)` (source line 18) comes from the
external `cachetools` library, so only its configuration is in the
source.  Per the spec: "Entries expire TTL seconds after insertion;
capacity overflow evicts the least-recently-used entry".  Entries are
kept most-recently-used first; times are seconds as naturals. -/
structure TTLCacheM (α : Type) where
  maxsize : Nat
  ttl : Nat
  entries : List (String × α × Nat)
deriving Repr, DecidableEq

/-- Modelled from the spec: `CACHE = TTLCache(maxsize=2048, ttl=60)`
(source line 18), initially empty. -/
def CACHE (α : Type) : TTLCacheM α :=
  TTLCacheM.mk 2048 60 []

/-- An entry inserted at time `t` is still live at time `now` while
fewer than `ttl` seconds have elapsed. -/
def entryLive (ttl : Nat) (insertedAt now : Nat) : Bool :=
  now < insertedAt + ttl

/-- Modelled from the spec: cache read (`key in CACHE` / `CACHE[key]`).
An absent or expired entry is a miss. -/
def cacheLookup {α : Type} (c : TTLCacheM α) (k : String) (now : Nat) :
    Option α :=
  match c.entries.find? (fun e => e.1 == k) with
  | none => none
  | some e => if entryLive c.ttl e.2.2 now then some e.2.1 else none

/-- Modelled from the spec: state change of a read — a live hit is
refreshed to most-recently-used, otherwise nothing changes. -/
def cacheGetStep {α : Type} (c : TTLCacheM α) (k : String) (now : Nat) :
    TTLCacheM α :=
  match c.entries.find? (fun e => e.1 == k) with
  | none => c
  | some e =>
    if entryLive c.ttl e.2.2 now then
      TTLCacheM.mk c.maxsize c.ttl (e :: c.entries.filter (fun e2 => ¬ e2.1 = k))
    else c

/-- Unfolding equation of `cacheGetStep` for an absent key. -/
theorem cacheGetStep_eq_none {α : Type} (c : TTLCacheM α) (k : String)
    (now : Nat) (hf : c.entries.find? (fun e => e.1 == k) = none) :
    cacheGetStep c k now = c := by
  unfold cacheGetStep
  rw [hf]

/-- Unfolding equation of `cacheGetStep` for a found entry. -/
theorem cacheGetStep_eq_some {α : Type} (c : TTLCacheM α) (k : String)
    (now : Nat) (e : String × α × Nat)
    (hf : c.entries.find? (fun e2 => e2.1 == k) = some e) :
    cacheGetStep c k now
      = if entryLive c.ttl e.2.2 now then
          TTLCacheM.mk c.maxsize c.ttl
            (e :: c.entries.filter (fun e2 => ¬ e2.1 = k))
        else c := by
  unfold cacheGetStep
  rw [hf]

/-- Modelled from the spec: `CACHE[key] = value`.  Any previous entry
for the key is replaced, expired entries are dropped, and if the insert
would exceed `maxsize` the least-recently-used live entries (the tail)
are evicted first. -/
def cachePut {α : Type} (c : TTLCacheM α) (k : String) (v : α) (now : Nat) :
    TTLCacheM α :=
  let others := c.entries.filter (fun e => ¬ e.1 = k)
  let live := others.filter (fun e => entryLive c.ttl e.2.2 now)
  let kept := if live.length + 1 > c.maxsize then live.take (c.maxsize - 1)
              else live
  TTLCacheM.mk c.maxsize c.ttl ((k, v, now) :: kept)

/-- One timed cache operation. -/
inductive CacheOp (α : Type) where
  | put (k : String) (v : α)
  | get (k : String)
deriving Repr, DecidableEq

/-- Run one timed operation against the cache. -/
def cacheStep {α : Type} (c : TTLCacheM α) : CacheOp α × Nat → TTLCacheM α
  | (.put k v, now) => cachePut c k v now
  | (.get k, now) => cacheGetStep c k now

/-- Run a sequence of timed operations against the cache. -/
def cacheRun {α : Type} (c : TTLCacheM α) (ops : List (CacheOp α × Nat)) :
    TTLCacheM α :=
  ops.foldl cacheStep c

/-- The per-league recovery loop of a multi-league pipeline concatenates
exactly the parses of the leagues whose fetch succeeded. -/
theorem flatMap_recover_eq (f : String → Except UpstreamError Scoreboard)
    (sk : String) (L : List (String × String)) :
    (L.flatMap (fun p =>
      match f p.1 with
      | .error _ => []
      | .ok sb => parse_espn_events_to_matches sk sb p.1 p.2))
    = (L.filterMap (fun p =>
        (f p.1).toOption.map
          (fun sb => parse_espn_events_to_matches sk sb p.1 p.2))).flatten := by
  induction L with
  | nil => rfl
  | cons p L ih =>
    cases h : f p.1 with
    | error e =>
      simp [List.flatMap_cons, List.filterMap_cons, h, Except.toOption, ih]
    | ok sb =>
      simp [List.flatMap_cons, List.filterMap_cons, h, Except.toOption, ih]

/-- C2: for the multi-league sports (soccer over the 9 configured
leagues, tennis over ATP and WTA) the pipeline result is the
concatenation, in configuration order, of the normalized matches of
exactly those leagues whose scoreboard fetch succeeded; the pipelines
are total (a league failure never fails the request). -/
theorem C2_multi_league_union (o : ScoreOracle) :
    fetch_soccer_matches o
      = (SOCCER_LEAGUES.filterMap (fun p =>
          (o.board "soccer" p.1).toOption.map
            (fun sb => parse_espn_events_to_matches "soccer" sb p.1 p.2))).flatten
    ∧ fetch_tennis_matches o
      = (TENNIS_LEAGUES.filterMap (fun p =>
          (o.board "tennis" p.1).toOption.map
            (fun sb => parse_espn_events_to_matches "tennis" sb p.1 p.2))).flatten := by
  exact ⟨flatMap_recover_eq (o.board "soccer") "soccer" SOCCER_LEAGUES,
         flatMap_recover_eq (o.board "tennis") "tennis" TENNIS_LEAGUES⟩

/-- C1 fails as stated: for the NFL pipeline (likewise NHL and MLB) an
upstream failure is not converted into an empty list — it propagates,
both out of `fetch_nfl_matches` and out of the `choose_date` handler. -/
theorem C1_counterexample :
    fetch_nfl_matches
        (ScoreOracle.mk (fun _ _ => .error (UpstreamError.mk 500 "boom")))
      = .error (UpstreamError.mk 500 "boom")
    ∧ fetch_nfl_matches
        (ScoreOracle.mk (fun _ _ => .error (UpstreamError.mk 500 "boom")))
      ≠ .ok []
    ∧ on_date (fun s => s)
        (ScoreOracle.mk (fun _ _ => .error (UpstreamError.mk 500 "boom")))
        (ConvState.mk (some "nfl") none none [] 0) "today"
      = .error (UpstreamError.mk 500 "boom") := by
  refine ⟨rfl, ?_, rfl⟩
  intro h
  simp [fetch_nfl_matches, Except.map] at h

/-- C1 amended: only basketball's single-league pipeline swallows an
upstream failure into an empty list; for the NFL, NHL and MLB pipelines
the failure propagates unchanged to the caller. -/
theorem C1_single_league_amended (o : ScoreOracle)
    (league_code league_name : String) (e : UpstreamError) :
    (o.board "basketball" league_code = .error e →
      fetch_basket_matches o league_code league_name = [])
    ∧ (o.board "football" "nfl" = .error e → fetch_nfl_matches o = .error e)
    ∧ (o.board "hockey" "nhl" = .error e → fetch_nhl_matches_espn o = .error e)
    ∧ (o.board "baseball" "mlb" = .error e →
        fetch_mlb_matches_espn o = .error e) := by
  refine ⟨fun h => ?_, fun h => ?_, fun h => ?_, fun h => ?_⟩
  · simp [fetch_basket_matches, h]
  · simp [fetch_nfl_matches, h, Except.map]
  · simp [fetch_nhl_matches_espn, h, Except.map]
  · simp [fetch_mlb_matches_espn, h, Except.map]

/-- Witness for the amended C1 at a concrete failing oracle. -/
theorem C1_single_league_amended_witness :
    ((ScoreOracle.mk (fun _ _ => .error (UpstreamError.mk 404 "down"))).board
        "basketball" "nba" = .error (UpstreamError.mk 404 "down"))
    ∧ fetch_basket_matches
        (ScoreOracle.mk (fun _ _ => .error (UpstreamError.mk 404 "down")))
        "nba" "NBA" = []
    ∧ fetch_nfl_matches
        (ScoreOracle.mk (fun _ _ => .error (UpstreamError.mk 404 "down")))
      = .error (UpstreamError.mk 404 "down")
    ∧ fetch_nhl_matches_espn
        (ScoreOracle.mk (fun _ _ => .error (UpstreamError.mk 404 "down")))
      = .error (UpstreamError.mk 404 "down")
    ∧ fetch_mlb_matches_espn
        (ScoreOracle.mk (fun _ _ => .error (UpstreamError.mk 404 "down")))
      = .error (UpstreamError.mk 404 "down") := by
  have h := C1_single_league_amended
    (ScoreOracle.mk (fun _ _ => .error (UpstreamError.mk 404 "down")))
    "nba" "NBA" (UpstreamError.mk 404 "down")
  exact ⟨rfl, h.1 rfl, h.2.1 rfl, h.2.2.1 rfl, h.2.2.2 rfl⟩

/-- C4: per-event normalization.  An event with no competitions entry or
fewer than two competitors yields no Match and leaves the rest of the
batch untouched; with two or more competitors the home/away objects are
the explicitly tagged ones when a tag is present, positionally the first
and second otherwise; display names fall back long → short → fixed
placeholder, and a missing name alone never makes normalization fail. -/
theorem C4_event_normalizer (sk lc ln : String) (ev : RawEvent)
    (rest : List RawEvent) :
    (parse_espn_events_to_matches sk (Scoreboard.mk (ev :: rest)) lc ln
      = (normalizeEvent sk lc ln ev).toList
          ++ parse_espn_events_to_matches sk (Scoreboard.mk rest) lc ln)
    ∧ (normalizeEvent sk lc ln ev = none
        ↔ ev.competitions = []
          ∨ ∃ comp cs, ev.competitions = comp :: cs
              ∧ comp.competitors.length < 2)
    ∧ (∀ comp cs c1 c2 cs', ev.competitions = comp :: cs →
        comp.competitors = c1 :: c2 :: cs' →
        normalizeEvent sk lc ln ev
          = some (Match.mk sk lc ln (ev.id.getD "None")
              (comp.date.getD (ev.date.getD ""))
              (teamName ((comp.competitors.find? isHomeTag).getD c1).team "HOME")
              (teamName ((comp.competitors.find? isAwayTag).getD c2).team "AWAY")
              (teamIdField ((comp.competitors.find? isHomeTag).getD c1).team)
              (teamIdField ((comp.competitors.find? isAwayTag).getD c2).team)))
    ∧ (∀ (t : RawTeam) (ph s : String),
        (t.displayName = some s → s ≠ "" → teamName (some t) ph = s)
        ∧ (pyTruthy t.displayName = false → t.shortDisplayName = some s →
            s ≠ "" → teamName (some t) ph = s)
        ∧ (pyTruthy t.displayName = false → pyTruthy t.shortDisplayName = false →
            teamName (some t) ph = ph)) := by
  refine ⟨?_, ?_, ?_, ?_⟩
  · simp only [parse_espn_events_to_matches, List.filterMap_cons]
    cases h : normalizeEvent sk lc ln ev <;> simp [h]
  · unfold normalizeEvent
    cases hc : ev.competitions with
    | nil => simp
    | cons comp cs =>
      cases hcs : comp.competitors with
      | nil => simp [hcs]
      | cons c1 rest1 =>
        cases hrest : rest1 with
        | nil => simp [hcs, hrest]
        | cons c2 rest2 => simp [hcs, hrest]
  · intro comp cs c1 c2 cs' h1 h2
    unfold normalizeEvent
    rw [h1]
    simp only [h2]
  · intro t ph s
    refine ⟨fun h1 h2 => ?_, fun h1 h2 h3 => ?_, fun h1 h2 => ?_⟩
    · simp [teamName, pyOr, h1, h2]
    · cases hd : t.displayName with
      | none => simp [teamName, pyOr, hd, h2, h3]
      | some d =>
        have : d = "" := by
          by_contra hne
          simp [pyTruthy, hd, hne] at h1
        subst this
        simp [teamName, pyOr, hd, h2, h3]
    · cases hd : t.displayName with
      | none =>
        cases hsd : t.shortDisplayName with
        | none => simp [teamName, pyOr, hd, hsd]
        | some sd =>
          have : sd = "" := by
            by_contra hne
            simp [pyTruthy, hsd, hne] at h2
          subst this
          simp [teamName, pyOr, hd, hsd]
      | some d =>
        have hdd : d = "" := by
          by_contra hne
          simp [pyTruthy, hd, hne] at h1
        subst hdd
        cases hsd : t.shortDisplayName with
        | none => simp [teamName, pyOr, hd, hsd]
        | some sd =>
          have : sd = "" := by
            by_contra hne
            simp [pyTruthy, hsd, hne] at h2
          subst this
          simp [teamName, pyOr, hd, hsd]

/-- A competitor tagged `away` listed first, whose team has an id but no
name fields. -/
def c4AwayComp : RawCompetitor :=
  RawCompetitor.mk (some (RawTeam.mk (some "2") none none none)) (some "away") none

/-- A competitor tagged `home` listed second. -/
def c4HomeComp : RawCompetitor :=
  RawCompetitor.mk (some (RawTeam.mk (some "1") (some "Alpha") none none))
    (some "home") none

/-- A competition whose competitors are listed away-first. -/
def c4Comp : RawCompetition :=
  RawCompetition.mk [c4AwayComp, c4HomeComp] (some "2025-01-01T10:00Z") false

/-- A raw event for the C4 witness. -/
def c4Event : RawEvent :=
  RawEvent.mk (some "e1") (some "2025-01-01T00:00Z") [c4Comp]

/-- Witness for C4: the tag overrides position (home is the second
competitor), the unnamed team falls back to the placeholder instead of
failing, and an event with no competitions contributes nothing while the
rest of the batch is parsed. -/
theorem C4_event_normalizer_witness :
    (c4Event.competitions = c4Comp :: []
      ∧ c4Comp.competitors = c4AwayComp :: c4HomeComp :: [])
    ∧ normalizeEvent "soccer" "eng.1" "Premier League" c4Event
        = some (Match.mk "soccer" "eng.1" "Premier League" "e1"
            "2025-01-01T10:00Z" "Alpha" "AWAY" "1" "2")
    ∧ parse_espn_events_to_matches "soccer"
        (Scoreboard.mk [RawEvent.mk none none [], c4Event]) "eng.1"
        "Premier League"
      = (normalizeEvent "soccer" "eng.1" "Premier League"
          (RawEvent.mk none none [])).toList
          ++ parse_espn_events_to_matches "soccer" (Scoreboard.mk [c4Event])
              "eng.1" "Premier League" := by
  refine ⟨⟨rfl, rfl⟩, ?_, ?_⟩
  · rw [(C4_event_normalizer "soccer" "eng.1" "Premier League" c4Event []).2.2.1
      c4Comp [] c4AwayComp c4HomeComp [] rfl rfl]
    decide
  · exact (C4_event_normalizer "soccer" "eng.1" "Premier League"
      (RawEvent.mk none none []) [c4Event]).1

/-- `lexLe` decides the negation of the lexicographic strict order. -/
theorem lexLe_iff_not_lex (as bs : List Char) :
    lexLe as bs = true ↔ ¬ List.Lex (fun x y : Char => x < y) bs as := by
  induction as generalizing bs with
  | nil =>
    simp only [lexLe, true_iff]
    exact List.Lex.not_nil_right _ _
  | cons a as ih =>
    cases bs with
    | nil =>
      simp only [lexLe]
      constructor
      · intro h
        exact (Bool.false_ne_true h).elim
      · intro h
        exact (h List.Lex.nil).elim
    | cons b bs =>
      by_cases hab : a < b
      · simp only [lexLe, if_pos hab, true_iff]
        intro h
        cases h with
        | cons h2 => exact absurd hab (lt_irrefl a)
        | rel h2 => exact absurd hab (lt_asymm h2)
      · by_cases hba : b < a
        · simp only [lexLe, if_neg hab, if_pos hba]
          constructor
          · intro h
            exact (Bool.false_ne_true h).elim
          · intro h
            exact (h (List.Lex.rel hba)).elim
        · have heq : a = b := le_antisymm (le_of_not_lt hba) (le_of_not_lt hab)
          subst heq
          simp only [lexLe, if_neg hab, if_neg hba]
          rw [List.Lex.cons_iff]
          exact ih bs

/-- `strLe` agrees with the standard string order. -/
theorem strLe_iff (a b : String) : strLe a b = true ↔ a ≤ b := by
  rw [strLe, lexLe_iff_not_lex]
  rw [show List.Lex (fun x y : Char => x < y) b.data a.data ↔ b < a from
    (String.lt_iff_toList_lt).symm]
  exact not_lt

/-- The sort used by the date handler produces a list non-decreasing in
`start_time`. -/
theorem sortMatches_pairwise (ms : List Match) :
    List.Pairwise (fun a b : Match => a.start_time ≤ b.start_time)
      (sortMatches ms) := by
  haveI : IsTotal Match (fun a b : Match => strLe a.start_time b.start_time = true) :=
    ⟨fun a b => by
      rw [strLe_iff, strLe_iff]
      exact le_total a.start_time b.start_time⟩
  haveI : IsTrans Match (fun a b : Match => strLe a.start_time b.start_time = true) :=
    ⟨fun _ _ _ hab hbc => by
      rw [strLe_iff] at *
      exact le_trans hab hbc⟩
  have h := List.sorted_insertionSort
    (fun a b : Match => strLe a.start_time b.start_time = true) ms
  exact h.imp (fun hab => (strLe_iff _ _).mp hab)

/-- C3: whenever the `choose_date` action completes, the match list it
stores in the conversation state is sorted non-decreasing by the
`start_time` strings (lexical comparison), and when non-empty that same
stored list is the one handed to the list renderer. -/
theorem C3_matches_sorted (fmtDt : String → String) (o : ScoreOracle)
    (st : ConvState) (choice sport : String) (st2 : ConvState) (r : RenderMsg)
    (hs : st.sport = some sport) (hsp : sport ≠ "")
    (hok : on_date fmtDt o st choice = .ok (st2, r)) :
    List.Pairwise (fun a b : Match => a.start_time ≤ b.start_time) st2.«matches»
    ∧ (st2.«matches» ≠ [] →
        r = RenderMsg.mk (dateTitle sport choice)
              (kb_matches fmtDt st2.«matches» 0 10)) := by
  unfold on_date at hok
  rw [show pyTruthy st.sport = true from by simp [hs, pyTruthy, hsp]] at hok
  simp only [Bool.true_eq_false, if_false, hs, Option.getD_some] at hok
  cases hE : pipelineFor o
      (ConvState.mk (some sport) st.basket_league (some choice) st.«matches» 0)
      sport with
  | error e =>
    rw [hE] at hok
    simp [Except.map] at hok
  | ok ms =>
    rw [hE] at hok
    simp only [Except.map, Except.ok.injEq] at hok
    by_cases hnil : sortMatches ms = []
    · rw [if_pos hnil] at hok
      cases hok
      refine ⟨sortMatches_pairwise ms, fun hne => ?_⟩
      exact absurd hnil hne
    · rw [if_neg hnil] at hok
      cases hok
      exact ⟨sortMatches_pairwise ms, fun _ => rfl⟩

/-- A tennis scoreboard event with two untagged, unnamed competitors. -/
def c3ev (i time : String) : RawEvent :=
  RawEvent.mk (some i) none
    [RawCompetition.mk
      [RawCompetitor.mk none none none, RawCompetitor.mk none none none]
      (some time) true]

/-- Oracle for the C3 witness: ATP returns two events out of time order,
WTA fails. -/
def c3Oracle : ScoreOracle :=
  ScoreOracle.mk (fun _ league =>
    if league = "atp" then
      .ok (Scoreboard.mk [c3ev "e2" "2025-01-02T10:00Z", c3ev "e1" "2025-01-01T10:00Z"])
    else .error (UpstreamError.mk 404 "na"))

/-- State for the C3 witness: tennis selected. -/
def c3St : ConvState := ConvState.mk (some "tennis") none none [] 0

/-- The (state, render) pair produced by the C3 witness run. -/
def c3Out : ConvState × RenderMsg :=
  match on_date (fun s => s) c3Oracle c3St "today" with
  | .ok x => x
  | .error _ => default

/-- Witness for C3 at a concrete unsorted upstream answer. -/
theorem C3_matches_sorted_witness :
    (c3St.sport = some "tennis"
      ∧ on_date (fun s => s) c3Oracle c3St "today" = .ok c3Out)
    ∧ List.Pairwise (fun a b : Match => a.start_time ≤ b.start_time)
        c3Out.1.«matches»
    ∧ c3Out.1.«matches».map (fun m => m.id) = ["e1", "e2"] := by
  have h := C3_matches_sorted (fun s => s) c3Oracle c3St "today" "tennis"
    c3Out.1 c3Out.2 rfl (by decide) rfl
  exact ⟨⟨rfl, rfl⟩, h.1, by decide⟩

/-- C6: an `open_match` action whose id is not in the stored list (or
arriving with no sport selected) produces exactly the fixed not-found
render whose keyboard is the sports menu — a working path back — and
issues no enrichment fetch at all. -/
theorem C6_match_not_found (fmtDt : String → String) (o : EnrichOracle)
    (st : ConvState) (match_id : String)
    (h : pyTruthy st.sport = false
      ∨ st.«matches».find? (fun m => m.id == match_id) = none) :
    on_match fmtDt o st match_id = (notFoundRender, [])
    ∧ notFoundRender.text
        = "Erreur: match introuvable dans la liste. Reviens au menu."
    ∧ notFoundRender.keyboard = kb_sports
    ∧ Button.mk "⚽ Foot" "sport|soccer" ∈ kb_sports.flatten := by
  refine ⟨?_, rfl, rfl, by decide⟩
  unfold on_match
  rw [if_pos h]

/-- Witness for C6: empty stored list, stale match id. -/
theorem C6_match_not_found_witness :
    ((ConvState.mk (some "soccer") none none [] 0).«matches».find?
        (fun m => m.id == "401") = none)
    ∧ on_match (fun s => s)
        (EnrichOracle.mk (fun _ _ _ => .error ()) (fun _ => .error ())
          (fun _ => .error ()))
        (ConvState.mk (some "soccer") none none [] 0) "401"
      = (notFoundRender, []) := by
  refine ⟨rfl, ?_⟩
  exact (C6_match_not_found (fun s => s)
    (EnrichOracle.mk (fun _ _ _ => .error ()) (fun _ => .error ())
      (fun _ => .error ()))
    (ConvState.mk (some "soccer") none none [] 0) "401" (Or.inr rfl)).1

/-- C10: when the selected sport is tennis, an `open_match` detail
request issues no upstream fetch whatsoever (in particular no per-team
schedule call) and renders both form lines as the fixed placeholder. -/
theorem C10_tennis_no_form_fetch (fmtDt : String → String) (o : EnrichOracle)
    (st : ConvState) (match_id : String) (m : Match)
    (hs : st.sport = some "tennis")
    (hm : st.«matches».find? (fun mm => mm.id == match_id) = some m) :
    on_match fmtDt o st match_id
      = (detailRender fmtDt "tennis" m "📈 Forme: indisponible"
          "📈 Forme: indisponible" [] st.page, []) := by
  unfold on_match
  rw [if_neg ?hneg]
  case hneg =>
    rw [hs, hm]
    simp [pyTruthy]
  rw [hs, hm]
  rfl

/-- Witness for C10 at a one-match tennis state. -/
theorem C10_tennis_no_form_fetch_witness :
    ((ConvState.mk (some "tennis") none (some "today")
        [Match.mk "tennis" "atp" "ATP" "t1" "2025-01-01T10:00Z" "HOME" "AWAY" "" ""]
        0).«matches».find? (fun mm => mm.id == "t1")
      = some (Match.mk "tennis" "atp" "ATP" "t1" "2025-01-01T10:00Z" "HOME" "AWAY" "" ""))
    ∧ on_match (fun s => s)
        (EnrichOracle.mk (fun _ _ _ => .error ()) (fun _ => .error ())
          (fun _ => .error ()))
        (ConvState.mk (some "tennis") none (some "today")
          [Match.mk "tennis" "atp" "ATP" "t1" "2025-01-01T10:00Z" "HOME" "AWAY" "" ""]
          0) "t1"
      = (detailRender (fun s => s) "tennis"
          (Match.mk "tennis" "atp" "ATP" "t1" "2025-01-01T10:00Z" "HOME" "AWAY" "" "")
          "📈 Forme: indisponible" "📈 Forme: indisponible" [] 0, []) := by
  refine ⟨rfl, ?_⟩
  exact C10_tennis_no_form_fetch (fun s => s)
    (EnrichOracle.mk (fun _ _ _ => .error ()) (fun _ => .error ())
      (fun _ => .error ()))
    (ConvState.mk (some "tennis") none (some "today")
      [Match.mk "tennis" "atp" "ATP" "t1" "2025-01-01T10:00Z" "HOME" "AWAY" "" ""]
      0) "t1"
    (Match.mk "tennis" "atp" "ATP" "t1" "2025-01-01T10:00Z" "HOME" "AWAY" "" "")
    rfl rfl

/-- The date string an event is displayed with (the recency key of the
per-team schedule entries). -/
def eventDateKey (ev : RawEvent) : String :=
  match ev.competitions with
  | [] => ev.date.getD ""
  | comp :: _ => comp.date.getD (ev.date.getD "")

/-- Both scores of an event parse wherever the form loop would parse
them (i.e. the loop does not raise `ValueError` on this event). -/
def scoresParse (ev : RawEvent) : Bool :=
  match ev.competitions with
  | [] => true
  | comp :: _ =>
    if comp.statusCompleted = false then true
    else
      match comp.competitors with
      | c1 :: c2 :: _ =>
        (pyInt (pyOr c1.score "0")).isSome && (pyInt (pyOr c2.score "0")).isSome
      | _ => true

/-- An event contributes a form line: completed, two competitors with
parsable scores, and `team_id` on one of the two sides. -/
def qualifiesForm (team_id : String) (ev : RawEvent) : Bool :=
  match ev.competitions with
  | [] => false
  | comp :: _ =>
    if comp.statusCompleted = false then false
    else
      match comp.competitors with
      | c1 :: c2 :: _ =>
        (pyInt (pyOr c1.score "0")).isSome && (pyInt (pyOr c2.score "0")).isSome
          && (formTeamId c1 == team_id || formTeamId c2 == team_id)
      | _ => false

/-- The `"W Name1 S1-S2 Name2 (date)"` line of a qualifying event, with
win/loss/draw decided from the side `team_id` occupies. -/
def formLineOf (fmtDt : String → String) (team_id : String) (ev : RawEvent) :
    String :=
  match ev.competitions with
  | [] => ""
  | comp :: _ =>
    match comp.competitors with
    | c1 :: c2 :: _ =>
      let s1 := (pyInt (pyOr c1.score "0")).getD 0
      let s2 := (pyInt (pyOr c2.score "0")).getD 0
      let n1 := formName c1 "T1"
      let n2 := formName c2 "T2"
      let date := fmtDt (comp.date.getD (ev.date.getD ""))
      let wl := if formTeamId c1 = team_id then
                  if s1 > s2 then "W" else if s1 < s2 then "L" else "D"
                else
                  if s2 > s1 then "W" else if s2 < s1 then "L" else "D"
      wl ++ " " ++ n1 ++ " " ++ toString s1 ++ "-" ++ toString s2 ++ " "
        ++ n2 ++ " (" ++ date ++ ")"
    | _ => ""

/-- Under parsable scores, the per-event step skips non-qualifying
events and emits exactly the formatted line of qualifying ones. -/
theorem formEventStep_of_scoresParse (fmtDt : String → String)
    (team_id : String) (ev : RawEvent) (h : scoresParse ev = true) :
    formEventStep fmtDt team_id ev
      = .ok (if qualifiesForm team_id ev = true then
          some (formLineOf fmtDt team_id ev) else none) := by
  unfold formEventStep qualifiesForm formLineOf
  cases hc : ev.competitions with
  | nil => simp
  | cons comp comps =>
    by_cases hst : comp.statusCompleted = false
    · simp [hst]
    · simp only [hst, if_false, Bool.false_eq_true]
      cases hcs : comp.competitors with
      | nil => simp
      | cons c1 r1 =>
        cases r1 with
        | nil => simp
        | cons c2 r2 =>
          have h2 : (pyInt (pyOr c1.score "0")).isSome
              ∧ (pyInt (pyOr c2.score "0")).isSome := by
            unfold scoresParse at h
            rw [hc] at h
            simp only [hst, if_false, Bool.false_eq_true, hcs] at h
            simpa using h
          obtain ⟨h21, h22⟩ := h2
          cases hp1 : pyInt (pyOr c1.score "0") with
          | none => rw [hp1] at h21; simp at h21
          | some s1 =>
            cases hp2 : pyInt (pyOr c2.score "0") with
            | none => rw [hp2] at h22; simp at h22
            | some s2 =>
              by_cases ht1 : formTeamId c1 = team_id
              · simp [hp1, hp2, ht1]
              · by_cases ht2 : formTeamId c2 = team_id
                · simp [hp1, hp2, ht1, ht2]
                · simp [hp1, hp2, ht1, ht2]

/-- The form loop returns the accumulated lines extended with the lines
of the first qualifying events, in response order, capped at five. -/
theorem formLoop_eq_take (fmtDt : String → String) (team_id : String) :
    ∀ (evs : List RawEvent) (acc : List String),
      (∀ ev ∈ evs, scoresParse ev = true) → acc.length < 5 →
      formLoop fmtDt team_id evs acc
        = .ok (acc ++ ((evs.filter (qualifiesForm team_id)).map
            (formLineOf fmtDt team_id)).take (5 - acc.length))
  | [], acc, _, _ => by simp [formLoop]
  | ev :: rest, acc, hp, hlen => by
    have hpe := hp ev (List.mem_cons_self ev rest)
    have hpr : ∀ e ∈ rest, scoresParse e = true :=
      fun e he => hp e (List.mem_cons_of_mem ev he)
    rw [show formLoop fmtDt team_id (ev :: rest) acc
        = (match formEventStep fmtDt team_id ev with
           | .error _ => .error ()
           | .ok none => formLoop fmtDt team_id rest acc
           | .ok (some line) =>
             let acc2 := acc ++ [line]
             if acc2.length ≥ 5 then .ok acc2
             else formLoop fmtDt team_id rest acc2) from rfl]
    rw [formEventStep_of_scoresParse fmtDt team_id ev hpe]
    by_cases hq : qualifiesForm team_id ev = true
    · rw [if_pos hq]
      simp only []
      rw [List.filter_cons_of_pos hq, List.map_cons]
      by_cases h5 : acc.length + 1 ≥ 5
      · rw [if_pos (by simpa using h5)]
        have hlen4 : acc.length = 4 := by omega
        have ht : 5 - acc.length = 1 := by omega
        rw [ht]
        simp
      · rw [if_neg (by simpa using h5)]
        rw [formLoop_eq_take fmtDt team_id rest (acc ++ [formLineOf fmtDt team_id ev])
          hpr (by simp; omega)]
        have ht : 5 - acc.length = (5 - (acc.length + 1)) + 1 := by omega
        rw [ht, List.take_succ_cons]
        simp
    · rw [if_neg hq]
      simp only []
      rw [formLoop_eq_take fmtDt team_id rest acc hpr hlen]
      rw [List.filter_cons_of_neg (by simpa using hq)]

/-- C7: the recent-form fetcher requests the team's last 25 scheduled
events; on success (with parsable scores) it returns the fixed
unavailable string when no event qualifies (endpoint failed, zero
completed events, or the team never among the two competitors), and
otherwise the formatted `"W Name1 S1-S2 Name2 (date)"` lines of the
first at-most-five qualifying events in response order — so fewer than
five qualifying events are still returned, and when the provider lists
events most-recent-first the output is the five most recent,
most-recent-first. -/
theorem C7_recent_form (fmtDt : String → String) (o : EnrichOracle)
    (sport_path league team_id : String) :
    ((team_form_request sport_path league team_id).2 = [("limit", 25)])
    ∧ (o.schedule sport_path league team_id = .error () →
        team_form_espn fmtDt o sport_path league team_id
          = "📈 Forme: indisponible")
    ∧ (∀ data : Scoreboard, o.schedule sport_path league team_id = .ok data →
        (∀ ev ∈ data.events, scoresParse ev = true) →
        (team_form_espn fmtDt o sport_path league team_id
          = if data.events.filter (qualifiesForm team_id) = [] then
              "📈 Forme: indisponible"
            else
              "📈 Forme (5 derniers):\n- "
                ++ joinSep "\n- "
                  (((data.events.filter (qualifiesForm team_id)).take 5).map
                    (formLineOf fmtDt team_id)))
        ∧ ((data.events.filter (qualifiesForm team_id)).take 5).length ≤ 5
        ∧ (List.Pairwise
              (fun x y : RawEvent =>
                strLe (eventDateKey y) (eventDateKey x) = true) data.events →
            List.Pairwise
              (fun x y : RawEvent =>
                strLe (eventDateKey y) (eventDateKey x) = true)
              ((data.events.filter (qualifiesForm team_id)).take 5))) := by
  refine ⟨rfl, fun herr => ?_, fun data hok hp => ⟨?_, ?_, fun hpw => ?_⟩⟩
  · unfold team_form_espn
    rw [herr]
  · have hstep : team_form_espn fmtDt o sport_path league team_id
        = (match formLoop fmtDt team_id data.events [] with
           | Except.error _ => "📈 Forme: indisponible"
           | Except.ok results =>
             if results = [] then "📈 Forme: indisponible"
             else "📈 Forme (5 derniers):\n- " ++ joinSep "\n- " results) := by
      unfold team_form_espn
      rw [hok]
    rw [hstep, formLoop_eq_take fmtDt team_id data.events [] hp (by simp)]
    simp only [List.nil_append, List.length_nil, Nat.sub_zero]
    show (if ((data.events.filter (qualifiesForm team_id)).map
            (formLineOf fmtDt team_id)).take 5 = [] then "📈 Forme: indisponible"
          else "📈 Forme (5 derniers):\n- "
            ++ joinSep "\n- " (((data.events.filter (qualifiesForm team_id)).map
                (formLineOf fmtDt team_id)).take 5)) = _
    by_cases hf : data.events.filter (qualifiesForm team_id) = []
    · simp [hf]
    · have hne : ((data.events.filter (qualifiesForm team_id)).map
          (formLineOf fmtDt team_id)).take 5 ≠ [] := by
        obtain ⟨a, l, he⟩ := List.exists_cons_of_ne_nil hf
        rw [he]
        simp
      rw [if_neg hne, if_neg hf, ← List.map_take]
  · exact List.length_take_le 5 _
  · exact List.Pairwise.sublist
      ((List.take_sublist 5 _).trans (List.filter_sublist _)) hpw

/-- One schedule event for the C7 witness: the inspected team (id `9`,
abbreviation `US`) listed first against team `7` (`THEM`). -/
def c7ev (i time : String) (completed : Bool) (s1 s2 : String) : RawEvent :=
  RawEvent.mk (some i) none
    [RawCompetition.mk
      [RawCompetitor.mk (some (RawTeam.mk (some "9") none none (some "US")))
         none (some s1),
       RawCompetitor.mk (some (RawTeam.mk (some "7") none none (some "THEM")))
         none (some s2)]
      (some time) completed]

/-- Schedule payload for the C7 witness: three completed and two
in-progress events, most recent first. -/
def c7Data : Scoreboard := Scoreboard.mk
  [c7ev "e5" "05/01" true "3" "1",
   c7ev "e4" "04/01" false "0" "0",
   c7ev "e3" "03/01" true "0" "0",
   c7ev "e2" "02/01" false "0" "0",
   c7ev "e1" "01/01" true "1" "2"]

/-- Enrichment oracle for the C7 witness. -/
def c7Oracle : EnrichOracle :=
  EnrichOracle.mk (fun _ _ _ => .ok c7Data) (fun _ => .error ())
    (fun _ => .error ())

/-- Witness for C7: three completed plus two in-progress events yield
exactly three formatted lines, most recent first. -/
theorem C7_recent_form_witness :
    (c7Oracle.schedule "hockey" "nhl" "9" = .ok c7Data
      ∧ (∀ ev ∈ c7Data.events, scoresParse ev = true)
      ∧ List.Pairwise
          (fun x y : RawEvent => strLe (eventDateKey y) (eventDateKey x) = true)
          c7Data.events)
    ∧ team_form_espn (fun s => s) c7Oracle "hockey" "nhl" "9"
        = "📈 Forme (5 derniers):\n- W US 3-1 THEM (05/01)\n- D US 0-0 THEM (03/01)\n- L US 1-2 THEM (01/01)"
    ∧ List.Pairwise
        (fun x y : RawEvent => strLe (eventDateKey y) (eventDateKey x) = true)
        ((c7Data.events.filter (qualifiesForm "9")).take 5) := by
  have h := (C7_recent_form (fun s => s) c7Oracle "hockey" "nhl" "9").2.2
    c7Data rfl (by decide)
  refine ⟨⟨rfl, by decide, by decide⟩, ?_, h.2.2 (by decide)⟩
  rw [h.1]
  decide

/-- `joinSep` of a nonempty list starts with its head. -/
theorem joinSep_cons_exists (sep h : String) (rest : List String) :
    ∃ t, joinSep sep (h :: rest) = h ++ t := by
  cases rest with
  | nil => exact ⟨"", by simp [joinSep]⟩
  | cons b r =>
    exact ⟨sep ++ joinSep sep (b :: r), by simp [joinSep, String.append_assoc]⟩

/-- C8: each enrichment fetcher is total at its boundary — on an
upstream failure it returns its fixed unavailable string, and every
output is either that fixed string or a string starting with the
fetcher's display header; moreover inside the detail-page assembly the
form strings do not depend on the goalie/pitcher responses and the
extra lines do not depend on the schedule responses, so one fetcher's
failure cannot change another fetcher's result. -/
theorem C8_enrichment_isolation (fmtDt : String → String) (o : EnrichOracle)
    (sport_path league team_id game_id game_pk : String) :
    (o.goalies game_id = .error () →
      nhl_goalies o game_id = "🧤 Gardiens probables: indisponible")
    ∧ (o.pitchers game_pk = .error () →
      mlb_pitchers o game_pk = "⚾ Lanceurs probables: indisponible")
    ∧ (o.schedule sport_path league team_id = .error () →
      team_form_espn fmtDt o sport_path league team_id
        = "📈 Forme: indisponible")
    ∧ (nhl_goalies o game_id = "🧤 Gardiens probables: indisponible"
      ∨ ∃ t, nhl_goalies o game_id = "🧤 Gardiens probables (si dispo):" ++ t)
    ∧ (mlb_pitchers o game_pk = "⚾ Lanceurs probables: indisponible"
      ∨ ∃ t, mlb_pitchers o game_pk = "⚾ Lanceurs probables (si dispo):" ++ t)
    ∧ (team_form_espn fmtDt o sport_path league team_id
        = "📈 Forme: indisponible"
      ∨ ∃ t, team_form_espn fmtDt o sport_path league team_id
          = "📈 Forme (5 derniers):" ++ t)
    ∧ (∀ (sched : String → String → String → Except Unit Scoreboard)
         (g g2 : String → Except Unit NhlLanding)
         (p p2 : String → Except Unit MlbFeed) (sport : String)
         (picked : Match) (mid : String),
        (detailParts fmtDt (EnrichOracle.mk sched g p) sport picked mid).1
          = (detailParts fmtDt (EnrichOracle.mk sched g2 p2) sport picked mid).1
        ∧ (detailParts fmtDt (EnrichOracle.mk sched g p) sport picked mid).2.1
          = (detailParts fmtDt (EnrichOracle.mk sched g2 p2) sport picked mid).2.1)
    ∧ (∀ (sched sched2 : String → String → String → Except Unit Scoreboard)
         (g : String → Except Unit NhlLanding)
         (p : String → Except Unit MlbFeed) (sport : String) (picked : Match)
         (mid : String),
        (detailParts fmtDt (EnrichOracle.mk sched g p) sport picked mid).2.2.1
          = (detailParts fmtDt (EnrichOracle.mk sched2 g p) sport picked
              mid).2.2.1) := by
  refine ⟨fun h => ?_, fun h => ?_, fun h => ?_, ?_, ?_, ?_, ?_, ?_⟩
  · unfold nhl_goalies
    rw [h]
  · unfold mlb_pitchers
    rw [h]
  · unfold team_form_espn
    rw [h]
  · unfold nhl_goalies
    cases hg : o.goalies game_id with
    | error e => exact Or.inl rfl
    | ok landing =>
      by_cases hv : (!(pyTruthy landing.homeGoalie || pyTruthy landing.awayGoalie)) = true
      · left
        simp only [hv, if_true]
      · right
        simp only [hv, if_false, Bool.false_eq_true]
        exact joinSep_cons_exists "\n" _ _
  · unfold mlb_pitchers
    cases hg : o.pitchers game_pk with
    | error e => exact Or.inl rfl
    | ok feed =>
      by_cases hv : (!(pyTruthy feed.homePitcher || pyTruthy feed.awayPitcher)) = true
      · left
        simp only [hv, if_true]
      · right
        simp only [hv, if_false, Bool.false_eq_true]
        exact joinSep_cons_exists "\n" _ _
  · cases hs : o.schedule sport_path league team_id with
    | error e =>
      left
      unfold team_form_espn
      rw [hs]
    | ok data =>
      have hstep : team_form_espn fmtDt o sport_path league team_id
          = (match formLoop fmtDt team_id data.events [] with
             | Except.error _ => "📈 Forme: indisponible"
             | Except.ok results =>
               if results = [] then "📈 Forme: indisponible"
               else "📈 Forme (5 derniers):\n- " ++ joinSep "\n- " results) := by
        unfold team_form_espn
        rw [hs]
      cases hl : formLoop fmtDt team_id data.events [] with
      | error e =>
        left
        rw [hstep, hl]
      | ok results =>
        have hstep2 : team_form_espn fmtDt o sport_path league team_id
            = (if results = [] then "📈 Forme: indisponible"
               else "📈 Forme (5 derniers):\n- " ++ joinSep "\n- " results) := by
          rw [hstep, hl]
        by_cases hr : results = []
        · left
          rw [hstep2, if_pos hr]
        · right
          refine ⟨"\n- " ++ joinSep "\n- " results, ?_⟩
          rw [hstep2, if_neg hr,
            show ("📈 Forme (5 derniers):\n- " : String)
              = "📈 Forme (5 derniers):" ++ "\n- " from by decide]
          exact String.append_assoc _ _ _
  · intro sched g g2 p p2 sport picked mid
    unfold detailParts
    constructor <;> (split_ifs <;> rfl)
  · intro sched sched2 g p sport picked mid
    unfold detailParts
    split_ifs <;> rfl

/-- Witness for C8 at an oracle whose three endpoints all fail. -/
theorem C8_enrichment_isolation_witness :
    ((EnrichOracle.mk (fun _ _ _ => .error ()) (fun _ => .error ())
        (fun _ => .error ())).goalies "g" = .error ()
      ∧ nhl_goalies (EnrichOracle.mk (fun _ _ _ => .error ())
          (fun _ => .error ()) (fun _ => .error ())) "g"
        = "🧤 Gardiens probables: indisponible")
    ∧ mlb_pitchers (EnrichOracle.mk (fun _ _ _ => .error ())
        (fun _ => .error ()) (fun _ => .error ())) "p"
      = "⚾ Lanceurs probables: indisponible"
    ∧ team_form_espn (fun s => s) (EnrichOracle.mk (fun _ _ _ => .error ())
        (fun _ => .error ()) (fun _ => .error ())) "soccer" "eng.1" "5"
      = "📈 Forme: indisponible" := by
  have h := C8_enrichment_isolation (fun s => s)
    (EnrichOracle.mk (fun _ _ _ => .error ()) (fun _ => .error ())
      (fun _ => .error ()))
    "soccer" "eng.1" "5" "g" "p"
  exact ⟨⟨rfl, h.1 rfl⟩, h.2.1 rfl, h.2.2.1 rfl⟩

/-- Strings whose char data start with different characters differ. -/
theorem ne_of_data_head (a b : String) (c d : Char) (la lb : List Char)
    (ha : a.data = c :: la) (hb : b.data = d :: lb) (hcd : c ≠ d) : a ≠ b := by
  intro h
  subst h
  rw [hb] at ha
  injection ha with h1 _
  exact hcd h1.symm

/-- Char data of a `"page|"`-prefixed callback. -/
theorem data_page_append (t : String) :
    ("page|" ++ t).data = 'p' :: (['a', 'g', 'e', '|'] ++ t.data) := by
  rw [String.data_append]
  rfl

/-- Char data of a `"match|"`-prefixed callback. -/
theorem data_match_append (t : String) :
    ("match|" ++ t).data = 'm' :: (['a', 't', 'c', 'h', '|'] ++ t.data) := by
  rw [String.data_append]
  rfl

/-- Buttons with different callbacks differ. -/
theorem btn_ne_of_cb {b1 b2 : Button}
    (h : b1.callback_data ≠ b2.callback_data) : b1 ≠ b2 :=
  fun he => h (congrArg Button.callback_data he)

/-- A match button is never a page-navigation button. -/
theorem btnMatch_ne_pageBtn (fmtDt : String → String) (m : Match)
    (lbl t : String) : btnMatch fmtDt m ≠ Button.mk lbl ("page|" ++ t) :=
  btn_ne_of_cb (ne_of_data_head _ _ 'm' 'p' _ _ (data_match_append m.id)
    (data_page_append t) (by decide))

/-- A competition-context button is never a page-navigation button. -/
theorem btnComp_ne_pageBtn (m : Match) (lbl t : String) :
    btnComp m ≠ Button.mk lbl ("page|" ++ t) :=
  btn_ne_of_cb (ne_of_data_head _ _ 'n' 'p' _ _ rfl (data_page_append t)
    (by decide))

/-- A page-navigation button is not the back-to-dates footer button. -/
theorem pageBtn_ne_backDates (lbl t : String) :
    Button.mk lbl ("page|" ++ t) ≠ Button.mk "⬅️ Retour" "back|dates" :=
  btn_ne_of_cb (ne_of_data_head _ _ 'p' 'b' _ _ (data_page_append t) rfl
    (by decide))

/-- A page-navigation button is not the sports-menu footer button. -/
theorem pageBtn_ne_backSports (lbl t : String) :
    Button.mk lbl ("page|" ++ t) ≠ Button.mk "🏠 Menu sports" "back|sports" :=
  btn_ne_of_cb (ne_of_data_head _ _ 'p' 'b' _ _ (data_page_append t) rfl
    (by decide))

/-- A page-navigation button is not the close footer button. -/
theorem pageBtn_ne_close (lbl t : String) :
    Button.mk lbl ("page|" ++ t) ≠ Button.mk "❌ Fermer" "close|x" :=
  btn_ne_of_cb (ne_of_data_head _ _ 'p' 'c' _ _ (data_page_append t) rfl
    (by decide))

/-- The previous and next buttons differ (distinct labels). -/
theorem prevBtn_ne_nextBtn (p q : Nat) : prevBtn p ≠ nextBtn q := by
  intro h
  have h2 := congrArg Button.label h
  simp only [prevBtn, nextBtn] at h2
  exact absurd h2 (by decide)

/-- The next and previous buttons differ (distinct labels). -/
theorem nextBtn_ne_prevBtn (p q : Nat) : nextBtn p ≠ prevBtn q :=
  fun h => prevBtn_ne_nextBtn q p h.symm

/-- A button that is neither a match button nor a context button of any
match never occurs among the match rows. -/
theorem not_mem_matchRows_flatten (fmtDt : String → String) (l : List Match)
    (b : Button) (h1 : ∀ m : Match, btnMatch fmtDt m ≠ b)
    (h2 : ∀ m : Match, btnComp m ≠ b) :
    b ∉ (matchRows fmtDt l).flatten := by
  induction l with
  | nil => simp [matchRows]
  | cons m r ih =>
    intro hmem
    simp only [matchRows, List.flatten_cons, List.mem_append,
      List.mem_singleton] at hmem
    rcases hmem with h | h | h
    · exact h1 m h.symm
    · exact h2 m h.symm
    · exact ih h

/-- Membership in the trailing rows reduces to membership in the
navigation row for buttons distinct from the three footer buttons. -/
theorem mem_navFooter_iff (page total ps : Nat) (b : Button)
    (hf1 : b ≠ Button.mk "⬅️ Retour" "back|dates")
    (hf2 : b ≠ Button.mk "🏠 Menu sports" "back|sports")
    (hf3 : b ≠ Button.mk "❌ Fermer" "close|x") :
    b ∈ (navFooterRows page total ps).flatten
      ↔ b ∈ navButtons page total ps := by
  unfold navFooterRows
  by_cases he : (navButtons page total ps).isEmpty
  · rw [if_pos he]
    rw [List.isEmpty_iff.mp he]
    simp [hf1, hf2, hf3]
  · rw [if_neg he]
    simp [hf1, hf2, hf3]

/-- The previous button is in the navigation row exactly when the page
index is positive. -/
theorem prev_mem_navButtons (page total ps : Nat) :
    prevBtn page ∈ navButtons page total ps ↔ 0 < page := by
  unfold navButtons
  by_cases hp : page > 0 <;> by_cases hn : page * ps + ps < total <;>
    simp [hp, hn, prevBtn_ne_nextBtn page page]

/-- The next button is in the navigation row exactly when another full
or partial page follows. -/
theorem next_mem_navButtons (page total ps : Nat) :
    nextBtn page ∈ navButtons page total ps ↔ page * ps + ps < total := by
  unfold navButtons
  by_cases hp : page > 0 <;> by_cases hn : page * ps + ps < total <;>
    simp [hp, hn, nextBtn_ne_prevBtn page page]

/-- C9: the list keyboard shows the ten-match window starting at
`page*10` (at most ten entries, clamped `drop`/`take` slice), carries a
previous action iff `page > 0` and a next action iff
`(page+1)*10 < len(matches)`, and a stale page index past the end of the
list still yields the empty-window keyboard with its navigation and
footer rows rather than a failure. -/
theorem C9_pagination (fmtDt : String → String) (ms : List Match) (page : Nat) :
    (kb_matches fmtDt ms page 10
      = matchRows fmtDt (pageWindow ms page 10)
          ++ navFooterRows page ms.length 10)
    ∧ pageWindow ms page 10 = (ms.drop (page * 10)).take 10
    ∧ (pageWindow ms page 10).length ≤ 10
    ∧ (prevBtn page ∈ (kb_matches fmtDt ms page 10).flatten ↔ 0 < page)
    ∧ (nextBtn page ∈ (kb_matches fmtDt ms page 10).flatten
        ↔ (page + 1) * 10 < ms.length)
    ∧ (ms.length ≤ page * 10 →
        pageWindow ms page 10 = []
        ∧ kb_matches fmtDt ms page 10 = navFooterRows page ms.length 10) := by
  have hmrP : prevBtn page ∉ (matchRows fmtDt (pageWindow ms page 10)).flatten :=
    not_mem_matchRows_flatten fmtDt _ _
      (fun m => btnMatch_ne_pageBtn fmtDt m "⬅️ Précédent" (toString (page - 1)))
      (fun m => btnComp_ne_pageBtn m "⬅️ Précédent" (toString (page - 1)))
  have hmrN : nextBtn page ∉ (matchRows fmtDt (pageWindow ms page 10)).flatten :=
    not_mem_matchRows_flatten fmtDt _ _
      (fun m => btnMatch_ne_pageBtn fmtDt m "➡️ Suivant" (toString (page + 1)))
      (fun m => btnComp_ne_pageBtn m "➡️ Suivant" (toString (page + 1)))
  refine ⟨rfl, rfl, List.length_take_le 10 _, ?_, ?_, fun hstale => ⟨?_, ?_⟩⟩
  · simp only [kb_matches, List.flatten_append, List.mem_append]
    rw [mem_navFooter_iff page ms.length 10 (prevBtn page)
      (pageBtn_ne_backDates "⬅️ Précédent" (toString (page - 1)))
      (pageBtn_ne_backSports "⬅️ Précédent" (toString (page - 1)))
      (pageBtn_ne_close "⬅️ Précédent" (toString (page - 1)))]
    rw [prev_mem_navButtons]
    simp [hmrP]
  · simp only [kb_matches, List.flatten_append, List.mem_append]
    rw [mem_navFooter_iff page ms.length 10 (nextBtn page)
      (pageBtn_ne_backDates "➡️ Suivant" (toString (page + 1)))
      (pageBtn_ne_backSports "➡️ Suivant" (toString (page + 1)))
      (pageBtn_ne_close "➡️ Suivant" (toString (page + 1)))]
    rw [next_mem_navButtons]
    rw [show page * 10 + 10 = (page + 1) * 10 from by ring]
    simp [hmrN]
  · unfold pageWindow
    rw [List.drop_eq_nil_of_le hstale]
    rfl
  · unfold kb_matches
    unfold pageWindow
    rw [List.drop_eq_nil_of_le hstale]
    rfl

/-- A numbered match for the C9 witness. -/
def c9Match (i : Nat) : Match :=
  Match.mk "soccer" "eng.1" "PL" (toString i) (toString i) "H" "A" "" ""

/-- A list of 23 matches (the spec's pagination example). -/
def c9ms : List Match := (List.range 23).map c9Match

/-- Witness for C9 on 23 matches: page 0 shows 10 with next and no
previous, page 2 shows 3 with previous and no next, and the stale page 5
yields the empty window with the navigation/footer keyboard. -/
theorem C9_pagination_witness :
    ((pageWindow c9ms 0 10).length = 10
      ∧ nextBtn 0 ∈ (kb_matches (fun s => s) c9ms 0 10).flatten
      ∧ prevBtn 0 ∉ (kb_matches (fun s => s) c9ms 0 10).flatten)
    ∧ ((pageWindow c9ms 2 10).length = 3
      ∧ prevBtn 2 ∈ (kb_matches (fun s => s) c9ms 2 10).flatten
      ∧ nextBtn 2 ∉ (kb_matches (fun s => s) c9ms 2 10).flatten)
    ∧ (c9ms.length ≤ 5 * 10
      ∧ pageWindow c9ms 5 10 = []
      ∧ kb_matches (fun s => s) c9ms 5 10 = navFooterRows 5 c9ms.length 10) := by
  have h0 := C9_pagination (fun s => s) c9ms 0
  have h2 := C9_pagination (fun s => s) c9ms 2
  have h5 := C9_pagination (fun s => s) c9ms 5
  refine ⟨⟨by decide, ?_, ?_⟩, ⟨by decide, ?_, ?_⟩, ⟨by decide, ?_, ?_⟩⟩
  · exact (h0.2.2.2.2.1).mpr (by decide)
  · intro hmem
    exact absurd ((h0.2.2.2.1).mp hmem) (by decide)
  · exact (h2.2.2.2.1).mpr (by decide)
  · intro hmem
    exact absurd ((h2.2.2.2.2.1).mp hmem) (by decide)
  · exact (h5.2.2.2.2.2 (by decide)).1
  · exact (h5.2.2.2.2.2 (by decide)).2

/-- Every entry stored under key `k` was inserted at time `t`. -/
def keyTimeInv {α : Type} (k : String) (t : Nat) (c : TTLCacheM α) : Prop :=
  ∀ e ∈ c.entries, e.1 = k → e.2.2 = t

/-- A cache step preserves the ttl configuration. -/
theorem cacheStep_ttl {α : Type} (c : TTLCacheM α) (op : CacheOp α × Nat) :
    (cacheStep c op).ttl = c.ttl := by
  rcases op with ⟨o, tm⟩
  cases o with
  | put k v => rfl
  | get k =>
    show (cacheGetStep c k tm).ttl = c.ttl
    unfold cacheGetStep
    split
    · rfl
    · split <;> rfl

/-- A cache step preserves the maxsize configuration. -/
theorem cacheStep_maxsize {α : Type} (c : TTLCacheM α) (op : CacheOp α × Nat) :
    (cacheStep c op).maxsize = c.maxsize := by
  rcases op with ⟨o, tm⟩
  cases o with
  | put k v => rfl
  | get k =>
    show (cacheGetStep c k tm).maxsize = c.maxsize
    unfold cacheGetStep
    split
    · rfl
    · split <;> rfl

/-- A run of cache operations preserves the ttl configuration. -/
theorem cacheRun_ttl {α : Type} (ops : List (CacheOp α × Nat)) :
    ∀ c : TTLCacheM α, (cacheRun c ops).ttl = c.ttl := by
  induction ops with
  | nil => intro c; rfl
  | cons op rest ih =>
    intro c
    have h1 : cacheRun c (op :: rest) = cacheRun (cacheStep c op) rest := by
      simp [cacheRun]
    rw [h1, ih (cacheStep c op), cacheStep_ttl]

/-- Any operation not writing key `k` preserves the insertion-time
invariant for `k`. -/
theorem keyTimeInv_step {α : Type} (k : String) (t : Nat) (c : TTLCacheM α)
    (op : CacheOp α × Nat) (hop : ∀ v, op.1 ≠ CacheOp.put k v)
    (hc : keyTimeInv k t c) : keyTimeInv k t (cacheStep c op) := by
  rcases op with ⟨o, tm⟩
  cases o with
  | put k2 v =>
    have hk2 : k2 ≠ k := by
      intro he
      subst he
      exact hop v rfl
    intro e he hek
    have he2 : e ∈ (cachePut c k2 v tm).entries := he
    unfold cachePut at he2
    replace he := he2
    simp only [List.mem_cons] at he
    rcases he with he | he
    · subst he
      exact absurd hek hk2
    · have hmem : e ∈ c.entries := by
        split at he
        · have h2 := List.mem_of_mem_take he
          have h3 := (List.mem_filter.mp h2).1
          exact (List.mem_filter.mp h3).1
        · have h3 := (List.mem_filter.mp he).1
          exact (List.mem_filter.mp h3).1
      exact hc e hmem hek
  | get k2 =>
    intro e he hek
    have he2 : e ∈ (cacheGetStep c k2 tm).entries := he
    cases hf : c.entries.find? (fun e3 => e3.1 == k2) with
    | none =>
      rw [cacheGetStep_eq_none c k2 tm hf] at he2
      exact hc e he2 hek
    | some e2 =>
      rw [cacheGetStep_eq_some c k2 tm e2 hf] at he2
      by_cases hl : entryLive c.ttl e2.2.2 tm = true
      · rw [if_pos hl] at he2
        simp only [List.mem_cons] at he2
        rcases he2 with he2 | he2
        · rw [he2] at hek ⊢
          exact hc e2 (List.mem_of_find?_eq_some hf) hek
        · exact hc e (List.mem_filter.mp he2).1 hek
      · rw [if_neg hl] at he2
        exact hc e he2 hek

/-- A run of operations none of which writes key `k` preserves the
insertion-time invariant for `k`. -/
theorem keyTimeInv_run {α : Type} (k : String) (t : Nat)
    (ops : List (CacheOp α × Nat))
    (hops : ∀ p ∈ ops, ∀ v, p.1 ≠ CacheOp.put k v) :
    ∀ c : TTLCacheM α, keyTimeInv k t c → keyTimeInv k t (cacheRun c ops) := by
  induction ops with
  | nil => intro c hc; exact hc
  | cons op rest ih =>
    intro c hc
    have h1 : cacheRun c (op :: rest) = cacheRun (cacheStep c op) rest := by
      simp [cacheRun]
    rw [h1]
    exact ih (fun p hp v => hops p (List.mem_cons_of_mem op hp) v)
      (cacheStep c op)
      (keyTimeInv_step k t c op (hops op (List.mem_cons_self op rest)) hc)

/-- A fresh put establishes the insertion-time invariant for its key. -/
theorem keyTimeInv_put {α : Type} (k : String) (t : Nat) (c : TTLCacheM α)
    (v : α) : keyTimeInv k t (cachePut c k v t) := by
  intro e he hek
  unfold cachePut at he
  simp only [List.mem_cons] at he
  rcases he with he | he
  · rw [he]
  · exfalso
    have hmem : e ∈ c.entries.filter (fun e2 => ¬ e2.1 = k) := by
      split at he
      · exact (List.mem_filter.mp (List.mem_of_mem_take he)).1
      · exact (List.mem_filter.mp he).1
    have := (List.mem_filter.mp hmem).2
    simp only [decide_eq_true_eq] at this
    exact this hek

/-- A cache step never grows the entry list past maxsize. -/
theorem cacheStep_length {α : Type} (c : TTLCacheM α) (op : CacheOp α × Nat)
    (h1 : 1 ≤ c.maxsize) (h : c.entries.length ≤ c.maxsize) :
    (cacheStep c op).entries.length ≤ c.maxsize := by
  rcases op with ⟨o, tm⟩
  cases o with
  | put k v =>
    show ((k, v, tm) ::
      (if ((c.entries.filter (fun e => ¬ e.1 = k)).filter
            (fun e => entryLive c.ttl e.2.2 tm)).length + 1 > c.maxsize then
         ((c.entries.filter (fun e => ¬ e.1 = k)).filter
            (fun e => entryLive c.ttl e.2.2 tm)).take (c.maxsize - 1)
       else
         (c.entries.filter (fun e => ¬ e.1 = k)).filter
            (fun e => entryLive c.ttl e.2.2 tm))).length ≤ c.maxsize
    rw [List.length_cons]
    split
    · have h2 := List.length_take_le (c.maxsize - 1)
        ((c.entries.filter (fun e => ¬ e.1 = k)).filter
          (fun e => entryLive c.ttl e.2.2 tm))
      omega
    · omega
  | get k =>
    show (cacheGetStep c k tm).entries.length ≤ c.maxsize
    cases hf : c.entries.find? (fun e2 => e2.1 == k) with
    | none =>
      rw [cacheGetStep_eq_none c k tm hf]
      exact h
    | some e2 =>
      rw [cacheGetStep_eq_some c k tm e2 hf]
      by_cases hl : entryLive c.ttl e2.2.2 tm = true
      · rw [if_pos hl]
        show (e2 :: c.entries.filter (fun e => ¬ e.1 = k)).length ≤ c.maxsize
        rw [List.length_cons]
        have hlt : (c.entries.filter (fun e => ¬ e.1 = k)).length
            < c.entries.length := by
          rw [List.length_filter_lt_length_iff_exists]
          refine ⟨e2, List.mem_of_find?_eq_some hf, ?_⟩
          have h3 := List.find?_some hf
          simp only [beq_iff_eq] at h3
          simp [h3]
        omega
      · rw [if_neg hl]
        exact h

/-- A run of cache operations keeps the entry count within maxsize. -/
theorem cacheRun_length {α : Type} (ops : List (CacheOp α × Nat)) :
    ∀ c : TTLCacheM α, 1 ≤ c.maxsize → c.entries.length ≤ c.maxsize →
      (cacheRun c ops).entries.length ≤ c.maxsize := by
  induction ops with
  | nil => intro c _ h; exact h
  | cons op rest ih =>
    intro c h1 h
    have he : cacheRun c (op :: rest) = cacheRun (cacheStep c op) rest := by
      simp [cacheRun]
    rw [he]
    have h2 := ih (cacheStep c op)
      (by rw [cacheStep_maxsize]; exact h1)
      (by rw [cacheStep_maxsize]; exact cacheStep_length c op h1 h)
    rw [cacheStep_maxsize] at h2
    exact h2

/-- C5 (spec-modelled cache semantics, configuration from source line
18): a get more than 60 seconds after the put of a key, with no
intervening put of that key, misses; a run of operations from the
configured cache never holds more than 2048 entries; and a put into a
full cache of fresh live entries evicts exactly the least-recently-used
(last) entry. -/
theorem C5_cache_ttl_and_bound :
    (∀ (c : TTLCacheM Nat) (k : String) (v t : Nat)
       (ops : List (CacheOp Nat × Nat)) (t2 : Nat),
       c.ttl = 60 →
       (∀ p ∈ ops, ∀ v2, p.1 ≠ CacheOp.put k v2) →
       t + 60 < t2 →
       cacheLookup (cacheRun (cachePut c k v t) ops) k t2 = none)
    ∧ (∀ ops : List (CacheOp Nat × Nat),
        (cacheRun (CACHE Nat) ops).entries.length ≤ 2048)
    ∧ (∀ (c : TTLCacheM Nat) (k : String) (v now : Nat),
        c.entries.length = c.maxsize →
        (∀ e ∈ c.entries, ¬ e.1 = k) →
        (∀ e ∈ c.entries, entryLive c.ttl e.2.2 now = true) →
        (cachePut c k v now).entries = (k, v, now) :: c.entries.dropLast) := by
  refine ⟨?_, ?_, ?_⟩
  · intro c k v t ops t2 httl hops hlt
    have hinv : keyTimeInv k t (cacheRun (cachePut c k v t) ops) :=
      keyTimeInv_run k t ops hops _ (keyTimeInv_put k t c v)
    have httl2 : (cacheRun (cachePut c k v t) ops).ttl = 60 := by
      rw [cacheRun_ttl]
      show c.ttl = 60
      exact httl
    cases hf : (cacheRun (cachePut c k v t) ops).entries.find?
        (fun e => e.1 == k) with
    | none =>
      unfold cacheLookup
      rw [hf]
    | some e =>
      have h1 : e.1 = k := by
        have h2 := List.find?_some hf
        simpa using h2
      have h3 : e.2.2 = t :=
        hinv e (List.mem_of_find?_eq_some hf) h1
      unfold cacheLookup
      rw [hf]
      show (if entryLive (cacheRun (cachePut c k v t) ops).ttl e.2.2 t2
          then some e.2.1 else none) = none
      rw [httl2, h3, if_neg ?hdead]
      case hdead =>
        simp only [entryLive, decide_eq_true_eq]
        omega
  · intro ops
    exact cacheRun_length ops (CACHE Nat) (by decide) (by decide)
  · intro c k v now hlen hkeys hlive
    have hfil : c.entries.filter (fun e => ¬ e.1 = k) = c.entries :=
      List.filter_eq_self.mpr (fun e he => by simpa using hkeys e he)
    have hfil2 : c.entries.filter (fun e => entryLive c.ttl e.2.2 now)
        = c.entries :=
      List.filter_eq_self.mpr (fun e he => hlive e he)
    show ((k, v, now)
        :: (if ((c.entries.filter (fun e => ¬ e.1 = k)).filter
              (fun e => entryLive c.ttl e.2.2 now)).length + 1 > c.maxsize then
              ((c.entries.filter (fun e => ¬ e.1 = k)).filter
                (fun e => entryLive c.ttl e.2.2 now)).take (c.maxsize - 1)
            else (c.entries.filter (fun e => ¬ e.1 = k)).filter
              (fun e => entryLive c.ttl e.2.2 now)))
        = (k, v, now) :: c.entries.dropLast
    rw [hfil, hfil2, if_pos (by omega)]
    rw [show c.maxsize - 1 = c.entries.length - 1 from by omega]
    rw [← List.dropLast_eq_take]

/-- Witness for C5: a put at time 0, a read at 30 and an unrelated put
at 40, then a read at 61 misses; a two-put run stays within the bound;
a put into a full two-entry cache keeps the fresh entry plus the
most-recently-used old entry, evicting the LRU tail. -/
theorem C5_cache_ttl_and_bound_witness :
    ((CACHE Nat).ttl = 60
      ∧ (0 : Nat) + 60 < 61
      ∧ (TTLCacheM.mk 2 60 [("x", (5 : Nat), 10), ("y", 6, 11)]).entries.length
          = (TTLCacheM.mk 2 60 [("x", (5 : Nat), 10), ("y", 6, 11)]).maxsize)
    ∧ cacheLookup
        (cacheRun (cachePut (CACHE Nat) "a" 1 0)
          [(CacheOp.get "a", 30), (CacheOp.put "b" 2, 40)]) "a" 61 = none
    ∧ (cacheRun (CACHE Nat)
        [(CacheOp.put "a" 1, 0), (CacheOp.put "b" 2, 1)]).entries.length ≤ 2048
    ∧ (cachePut (TTLCacheM.mk 2 60 [("x", (5 : Nat), 10), ("y", 6, 11)])
        "z" 7 12).entries
      = ("z", 7, 12)
          :: (TTLCacheM.mk 2 60
              [("x", (5 : Nat), 10), ("y", 6, 11)]).entries.dropLast := by
  have hops : ∀ p ∈ ([(CacheOp.get "a", 30), (CacheOp.put "b" 2, 40)]
      : List (CacheOp Nat × Nat)), ∀ v2, p.1 ≠ CacheOp.put "a" v2 := by
    intro p hp v2
    simp only [List.mem_cons, List.not_mem_nil, or_false] at hp
    rcases hp with h | h
    · subst h
      simp
    · subst h
      simp
  refine ⟨⟨rfl, by decide, by decide⟩, ?_, ?_, ?_⟩
  · exact C5_cache_ttl_and_bound.1 (CACHE Nat) "a" 1 0
      [(CacheOp.get "a", 30), (CacheOp.put "b" 2, 40)] 61 rfl hops (by decide)
  · exact C5_cache_ttl_and_bound.2.1 [(CacheOp.put "a" 1, 0), (CacheOp.put "b" 2, 1)]
  · exact C5_cache_ttl_and_bound.2.2
      (TTLCacheM.mk 2 60 [("x", (5 : Nat), 10), ("y", 6, 11)]) "z" 7 12
      (by decide) (by decide) (by decide)
